import Mathlib

/-!
Shallow embedding of `fedmsg_meta_fedora_infrastructure/fasshim.py`.

The module resolves an IRC nickname or an email address to a Fedora Account
System (FAS) username through a memoized remote directory search, and computes
deterministic avatar URLs.  The remote directory service, the dogpile cache
region and the hashing primitives are modelled as follows:

* the remote directory is a parameter of type `Directory`, a function from the
  request the code builds (`base_url`, `username`, `password`, `search`,
  `by_email`) to the response: sequential, deterministic invocation;
* the dogpile memory-backend cache region is an association list where `set`
  prepends and `get` returns the most recently set binding for a key: this is
  observationally the dict backend (`set` overwrites, `get` reads back);
* dogpile's default `function_key_generator` produces
  `"<module>:<fn name>|" + " ".join(str(arg) for arg in args)` from the
  positional arguments; it is embedded as `function_key_generator` below;
* `hashlib.sha256`/`hashlib.md5` are embedded as executable implementations of
  the real algorithms over UTF-8 byte lists (`sha256hex`, `md5hex`);
* Python exceptions become an explicit error type `FasError`; both the
  zero-match and the multiple-match errors are `ValueError` in the source and
  are distinguished here by constructor, carrying the formatted message.
-/

namespace Fasshim

/-- A FAS credential bundle: the `fas_credentials` dict of the source, holding
`username`, `password` and an optional `base_url`. -/
structure FasCredentials where
  username : String
  password : String
  base_url : Option String
deriving DecidableEq

/-- One record of the `people` list in a directory response; the fields the
source reads (`username`, `email`, `ircnick`) are all optional dict keys. -/
structure Person where
  username : Option String
  email : Option String
  ircnick : Option String
deriving DecidableEq

/-- A `/user/list` response: the `people` list plus the top-level `username`
(read with `response['username']`) and the optional top-level `email` and
`ircnick` (read with `response.get(...)`). -/
structure FasResponse where
  people : List Person
  username : String
  email : Option String
  ircnick : Option String
deriving DecidableEq

/-- The request `_search_fas` issues: client construction parameters plus the
`req_params` of the `/user/list` call. -/
structure FasRequest where
  base_url : String
  username : String
  password : String
  search : String
  by_email : Bool
deriving DecidableEq

/-- The remote FAS directory service, modelled as a function from the request
to its response (deterministic, sequential invocation). -/
abbrev Directory := FasRequest → FasResponse

/-- The dogpile cache region with the default memory backend: an association
list; `set` prepends, `get` reads the most recent binding. -/
abbrev Cache := List (String × String)

/-- `region.get`: the most recently set value for a key, if any. -/
def Cache.get : Cache → String → Option String
  | [], _ => none
  | (k, v) :: rest, key => if key = k then some v else Cache.get rest key

/-- `region.set`: bind `key` to `v` (overwrites any earlier binding, since
`get` reads front to back). -/
def Cache.set (c : Cache) (key v : String) : Cache := (key, v) :: c

/-- A positional argument as seen by dogpile's default key generator: either a
plain string or the credentials dict. -/
inductive FasArg where
  | str (s : String)
  | credsArg (c : FasCredentials)
deriving DecidableEq

/-- Python `str()` of a credentials dict, as dogpile's `to_str=str` applies it
when building a cache key. -/
def pyDictStr (c : FasCredentials) : String :=
  match c.base_url with
  | none =>
    "\x7b'username': '" ++ c.username ++ "', 'password': '" ++ c.password ++ "'\x7d"
  | some u =>
    "\x7b'username': '" ++ c.username ++ "', 'password': '" ++ c.password ++
      "', 'base_url': '" ++ u ++ "'\x7d"

/-- `str()` of one positional argument. -/
def FasArg.toStr : FasArg → String
  | .str s => s
  | .credsArg c => pyDictStr c

/-- The module path of the source file, used in dogpile key namespaces. -/
def fasshimModule : String := "fedmsg_meta_fedora_infrastructure.fasshim"

/-- dogpile's default `function_key_generator` with `namespace=None`:
`"<module>:<fn name>|" + " ".join(map(str, args))`. -/
def function_key_generator (fn_name : String) (args : List FasArg) : String :=
  fasshimModule ++ ":" ++ fn_name ++ "|" ++
    String.intercalate " " (args.map FasArg.toStr)

/-- `email_key_func` as built in `_search_fas`:
`fas_region.function_key_generator(None, email2fas)` applied to the single
argument `email` — note no credentials argument. -/
def email_key_func (email : String) : String :=
  function_key_generator "email2fas" [FasArg.str email]

/-- `nick_key_func` as built in `_search_fas`, applied to the single argument
`ircnick` — note no credentials argument. -/
def nick_key_func (ircnick : String) : String :=
  function_key_generator "nick2fas" [FasArg.str ircnick]

/-- The positional-argument list of a `nick2fas`/`email2fas` call: the identity
string, followed by the credentials dict when one is passed. -/
def args_of (identity : String) (fas_credentials : Option FasCredentials) :
    List FasArg :=
  FasArg.str identity ::
    (match fas_credentials with
     | some c => [FasArg.credsArg c]
     | none => [])

/-- The errors the source can raise on the modelled paths.  `noMatch` and
`ambiguousMatch` are both Python `ValueError`s, distinguished here by
constructor and carrying the formatted message; `attributeError` models
`None.get(...)` when no credentials are supplied; `indexError` and `keyError`
model `people[0]` on an empty list and `person['username']` on a record
without that key. -/
inductive FasError where
  | noMatch (msg : String)
  | ambiguousMatch (msg : String)
  | attributeError
  | indexError
  | keyError
deriving DecidableEq

/-- Decidable equality of call outcomes, so concrete runs can be checked by
`decide`. -/
instance {ε α : Type} [DecidableEq ε] [DecidableEq α] :
    DecidableEq (Except ε α) := fun x y =>
  match x, y with
  | .ok a, .ok b =>
    if h : a = b then .isTrue (congrArg Except.ok h)
    else .isFalse (fun hh => h (Except.ok.inj hh))
  | .error a, .error b =>
    if h : a = b then .isTrue (congrArg Except.error h)
    else .isFalse (fun hh => h (Except.error.inj hh))
  | .ok _, .error _ => .isFalse (fun hh => Except.noConfusion hh)
  | .error _, .ok _ => .isFalse (fun hh => Except.noConfusion hh)

/-- Python `str(req_params)` for the request dict built by `_search_fas`. -/
def pyReqParamsStr (search_string : String) (by_email : Bool) : String :=
  if by_email then
    "\x7b'search': '" ++ search_string ++ "', 'by_email': 1\x7d"
  else
    "\x7b'search': '" ++ search_string ++ "'\x7d"

/-- The `ValueError` message for a zero-people response. -/
def noMatchMsg (search_string : String) (by_email : Bool) : String :=
  "There is no FAS account that matches \"" ++
    pyReqParamsStr search_string by_email ++ "\""

/-- The `ValueError` message `nick2fas` formats for a multi-people response. -/
def nickMultipleMsg (nickname : String) : String :=
  "The provided nickname, " ++ nickname ++
    ", returns multiple users in the search"

/-- The `ValueError` message `email2fas` formats for a multi-people response. -/
def emailMultipleMsg (email : String) : String :=
  "The provided email, " ++ email ++ ", returns multiple users in the search"

/-- The default FAS base URL. -/
def default_base_url : String := "https://admin.fedoraproject.org/accounts/"

/-- The request `_search_fas` issues for a given credential bundle, search
string and `by_email` flag. -/
def fas_request (creds : FasCredentials) (search_string : String)
    (by_email : Bool) : FasRequest :=
  { base_url := creds.base_url.getD default_base_url
    username := creds.username
    password := creds.password
    search := search_string
    by_email := by_email }

/-- One iteration of the cache-warming loop body in `_search_fas`.  Faithful to
the source: the loop variable `person` is never read — `fasname`, `email` and
`ircnick` all come from the top-level `response` —, and the keys are built by
applying the single-argument key functions to the identity alone. -/
def warm_step (response : FasResponse) (c : Cache) : Cache :=
  let fasname := response.username
  let c1 :=
    match response.email with
    | some email => c.set (email_key_func email) fasname
    | none => c
  match response.ircnick with
  | some ircnick => c1.set (nick_key_func ircnick) fasname
  | none => c1

/-- The cache-warming loop of `_search_fas`: one `warm_step` per person in the
response (the body does not depend on the person). -/
def warm_cache (response : FasResponse) (c : Cache) : Cache :=
  response.people.foldl (fun acc _person => warm_step response acc) c

/-- `_search_fas`.  Returns the outcome, the cache after the call, and the
number of remote directory searches the call issued.  `fas_credentials=None`
fails with `AttributeError` at `fas_credentials.get(...)` before any request
is sent. -/
def _search_fas (directory : Directory) (search_string : String)
    (fas_credentials : Option FasCredentials) (by_email : Bool)
    (cache : Cache) : Except FasError (List Person) × Cache × Nat :=
  match fas_credentials with
  | none => (Except.error FasError.attributeError, cache, 0)
  | some creds =>
    let response := directory (fas_request creds search_string by_email)
    if response.people.isEmpty then
      (Except.error (FasError.noMatch (noMatchMsg search_string by_email)),
        cache, 1)
    else
      (Except.ok response.people, warm_cache response cache, 1)

/-- dogpile's `cache_on_arguments` decorator over the memory backend: compute
the key from the positional arguments, return a cached value on a hit, else
run the body and store a successful result under the key (an exception caches
nothing under the key). -/
def cache_on_arguments (fn_name : String) (identity : String)
    (fas_credentials : Option FasCredentials)
    (body : Cache → Except FasError String × Cache × Nat) (cache : Cache) :
    Except FasError String × Cache × Nat :=
  let key := function_key_generator fn_name (args_of identity fas_credentials)
  match cache.get key with
  | some v => (Except.ok v, cache, 0)
  | none =>
    match body cache with
    | (Except.ok v, c, n) => (Except.ok v, c.set key v, n)
    | (Except.error e, c, n) => (Except.error e, c, n)

/-- The undecorated body of `nick2fas`. -/
def nick2fas_body (directory : Directory) (nickname : String)
    (fas_credentials : Option FasCredentials) (cache : Cache) :
    Except FasError String × Cache × Nat :=
  match _search_fas directory nickname fas_credentials false cache with
  | (Except.error e, c, n) => (Except.error e, c, n)
  | (Except.ok people, c, n) =>
    if 1 < people.length then
      (Except.error (FasError.ambiguousMatch (nickMultipleMsg nickname)), c, n)
    else
      match people.head? with
      | none => (Except.error FasError.indexError, c, n)
      | some p =>
        match p.username with
        | some u => (Except.ok u, c, n)
        | none => (Except.error FasError.keyError, c, n)

/-- `nick2fas`: the body wrapped by `@fas_region.cache_on_arguments()`. -/
def nick2fas (directory : Directory) (nickname : String)
    (fas_credentials : Option FasCredentials) (cache : Cache) :
    Except FasError String × Cache × Nat :=
  cache_on_arguments "nick2fas" nickname fas_credentials
    (nick2fas_body directory nickname fas_credentials) cache

/-- Python `str.endswith`, over the character lists of the strings. -/
def pyEndsWith (s suffix : String) : Bool :=
  suffix.toList.isSuffixOf s.toList

/-- Python `s.rsplit('@', 1)[0]`: everything before the last `'@'`, or the
whole string when there is none. -/
def rsplit_before_last_at (s : String) : String :=
  match s.toList.reverse.dropWhile (fun c => c != '@') with
  | [] => s
  | _ :: rest => String.mk rest.reverse

/-- The undecorated body of `email2fas`, including the
`@fedoraproject.org` short-circuit. -/
def email2fas_body (directory : Directory) (email : String)
    (fas_credentials : Option FasCredentials) (cache : Cache) :
    Except FasError String × Cache × Nat :=
  if pyEndsWith email "@fedoraproject.org" then
    (Except.ok (rsplit_before_last_at email), cache, 0)
  else
    match _search_fas directory email fas_credentials true cache with
    | (Except.error e, c, n) => (Except.error e, c, n)
    | (Except.ok people, c, n) =>
      if 1 < people.length then
        (Except.error (FasError.ambiguousMatch (emailMultipleMsg email)), c, n)
      else
        match people.head? with
        | none => (Except.error FasError.indexError, c, n)
        | some p =>
          match p.username with
          | some u => (Except.ok u, c, n)
          | none => (Except.error FasError.keyError, c, n)

/-- `email2fas`: the body wrapped by `@fas_region.cache_on_arguments()`. -/
def email2fas (directory : Directory) (email : String)
    (fas_credentials : Option FasCredentials) (cache : Cache) :
    Except FasError String × Cache × Nat :=
  cache_on_arguments "email2fas" email fas_credentials
    (email2fas_body directory email fas_credentials) cache

/-! ### Avatar URL construction -/

/-- The static avatar override table (`hardcoded_avatars`); the templates
contain the literal placeholder `{size}`. -/
def hardcoded_avatars : List (String × String) :=
  [("bodhi", "https://apps.fedoraproject.org/img/icons/bodhi-\x7bsize\x7d.png"),
   ("koschei",
    "https://apps.fedoraproject.org/img/icons/koschei-\x7bsize\x7d.png"),
   ("taskotron",
    "https://apps.fedoraproject.org/img/icons/taskotron-\x7bsize\x7d.png")]

/-- Python `template.format(size=size)` for the override templates: replace
every `{size}` placeholder with the decimal rendering of `size`. -/
def pyFormatSize (template : String) (size : Nat) : String :=
  template.replace "\x7bsize\x7d" (toString size)

/-- The external `libravatar` library (`dns=True` path only), treated as a
collaborator. -/
structure LibravatarResolver where
  from_openid : String → Nat → String → String
  from_email : String → Nat → String → String

/-- UTF-8 encoding of a single code point, as a list of byte values. -/
def utf8EncodeChar (n : Nat) : List Nat :=
  if n < 128 then [n]
  else if n < 2048 then [192 + n / 64, 128 + n % 64]
  else if n < 65536 then [224 + n / 4096, 128 + n / 64 % 64, 128 + n % 64]
  else [240 + n / 262144, 128 + n / 4096 % 64, 128 + n / 64 % 64, 128 + n % 64]

/-- Python `s.encode('utf-8')` as a list of byte values. -/
def utf8Bytes (s : String) : List Nat :=
  (s.toList.map (fun c => utf8EncodeChar c.toNat)).flatten

/-- The byte values `urllib.parse.quote` never escapes: ASCII letters, digits,
and `_ . - ~`. -/
def always_safe_byte (b : Nat) : Bool :=
  (65 ≤ b && b ≤ 90) || (97 ≤ b && b ≤ 122) || (48 ≤ b && b ≤ 57) ||
    b == 95 || b == 46 || b == 45 || b == 126

/-- Lowercase hexadecimal digit. -/
def hexDigitLower (n : Nat) : Char :=
  "0123456789abcdef".toList.getD n '0'

/-- Uppercase hexadecimal digit. -/
def hexDigitUpper (n : Nat) : Char :=
  "0123456789ABCDEF".toList.getD n '0'

/-- Two lowercase hex digits of a byte. -/
def byteHexLower (b : Nat) : String :=
  String.mk [hexDigitLower (b / 16 % 16), hexDigitLower (b % 16)]

/-- `urllib.parse.quote_plus` on one byte: kept verbatim when always safe,
space becomes `+`, anything else becomes a `%XX` escape with uppercase hex. -/
def quote_plus_byte (b : Nat) : List Char :=
  if always_safe_byte b then [Char.ofNat b]
  else if b == 32 then ['+']
  else ['%', hexDigitUpper (b / 16 % 16), hexDigitUpper (b % 16)]

/-- `urllib.parse.quote_plus` on a string: byte-wise over its UTF-8 encoding. -/
def quote_plus (s : String) : String :=
  String.mk (((utf8Bytes s).map quote_plus_byte).flatten)

/-- `_ordered_query_params`: with `collections.OrderedDict` available, the
given parameter order is preserved, so over an association list it is the
identity. -/
def _ordered_query_params (params : List (String × String)) :
    List (String × String) :=
  params

/-- `urllib.parse.urlencode` over already-stringified parameters:
`quote_plus(k)=quote_plus(v)` pairs joined with `&`. -/
def urlencode (params : List (String × String)) : String :=
  String.intercalate "&"
    (params.map (fun p => quote_plus p.1 ++ "=" ++ quote_plus p.2))

/-! ### SHA-256 over byte lists (`hashlib.sha256`) -/

/-- Bitwise rotate-right of a 32-bit word, in arithmetic form. -/
def rotr32 (n x : Nat) : Nat :=
  let y := x % 4294967296
  y / 2 ^ n + y % 2 ^ n * 2 ^ (32 - n)

/-- Logical right shift of a 32-bit word. -/
def shr32 (n x : Nat) : Nat := x % 4294967296 / 2 ^ n

/-- Bitwise complement of a 32-bit word. -/
def not32 (x : Nat) : Nat := 4294967295 - x % 4294967296

/-- Addition modulo `2^32`. -/
def add32 (a b : Nat) : Nat := (a + b) % 4294967296

/-- The 64 SHA-256 round constants, written in decimal. -/
def sha256K : List Nat :=
  [1116352408, 1899447441, 3049323471, 3921009573,
   961987163, 1508970993, 2453635748, 2870763221,
   3624381080, 310598401, 607225278, 1426881987,
   1925078388, 2162078206, 2614888103, 3248222580,
   3835390401, 4022224774, 264347078, 604807628,
   770255983, 1249150122, 1555081692, 1996064986,
   2554220882, 2821834349, 2952996808, 3210313671,
   3336571891, 3584528711, 113926993, 338241895,
   666307205, 773529912, 1294757372, 1396182291,
   1695183700, 1986661051, 2177026350, 2456956037,
   2730485921, 2820302411, 3259730800, 3345764771,
   3516065817, 3600352804, 4094571909, 275423344,
   430227734, 506948616, 659060556, 883997877,
   958139571, 1322822218, 1537002063, 1747873779,
   1955562222, 2024104815, 2227730452, 2361852424,
   2428436474, 2756734187, 3204031479, 3329325298]

/-- The eight SHA-256 initial hash values, written in decimal. -/
def sha256H0 : List Nat :=
  [1779033703, 3144134277, 1013904242, 2773480762,
   1359893119, 2600822924, 528734635, 1541459225]

/-- Merkle–Damgård padding with a big-endian 64-bit bit length. -/
def sha256pad (msg : List Nat) : List Nat :=
  let len := msg.length
  let zeros := (120 - (len + 1) % 64) % 64
  let bitlen := 8 * len
  msg ++ [128] ++ List.replicate zeros 0 ++
    [bitlen / 2 ^ 56 % 256, bitlen / 2 ^ 48 % 256, bitlen / 2 ^ 40 % 256,
     bitlen / 2 ^ 32 % 256, bitlen / 2 ^ 24 % 256, bitlen / 2 ^ 16 % 256,
     bitlen / 2 ^ 8 % 256, bitlen % 256]

/-- Split a byte list into 64-byte blocks. -/
def chunks64 : List Nat → List (List Nat)
  | [] => []
  | b :: bs => ((b :: bs).take 64) :: chunks64 (bs.drop 63)
termination_by bs => bs.length
decreasing_by simp [List.length_drop]; omega

/-- Big-endian 32-bit words of a byte list. -/
def be32Words : List Nat → List Nat
  | a :: b :: c :: d :: rest =>
    (a * 16777216 + b * 65536 + c * 256 + d) :: be32Words rest
  | _ => []

/-- SHA-256 message-schedule sigma functions. -/
def smallSigma0 (x : Nat) : Nat := rotr32 7 x ^^^ rotr32 18 x ^^^ shr32 3 x

/-- Second message-schedule sigma function. -/
def smallSigma1 (x : Nat) : Nat := rotr32 17 x ^^^ rotr32 19 x ^^^ shr32 10 x

/-- SHA-256 compression Sigma functions. -/
def bigSigma0 (x : Nat) : Nat := rotr32 2 x ^^^ rotr32 13 x ^^^ rotr32 22 x

/-- Second compression Sigma function. -/
def bigSigma1 (x : Nat) : Nat := rotr32 6 x ^^^ rotr32 11 x ^^^ rotr32 25 x

/-- SHA-256 choice function. -/
def chFn (p q r : Nat) : Nat := (p &&& q) ^^^ (not32 p &&& r)

/-- SHA-256 majority function. -/
def majFn (p q r : Nat) : Nat := ((p &&& q) ^^^ (p &&& r)) ^^^ (q &&& r)

/-- Extend the message schedule by one word. -/
def sha256ExtendStep (w : List Nat) : List Nat :=
  let n := w.length
  w ++ [add32 (add32 (smallSigma1 (w.getD (n - 2) 0)) (w.getD (n - 7) 0))
          (add32 (smallSigma0 (w.getD (n - 15) 0)) (w.getD (n - 16) 0))]

/-- The 64-word message schedule of one block. -/
def sha256Schedule (block : List Nat) : List Nat :=
  (List.range 48).foldl (fun w _ => sha256ExtendStep w) (be32Words block)

/-- One SHA-256 round on the working state `[a, b, c, d, e, f, g, h]`. -/
def sha256Round (st : List Nat) (wk : Nat × Nat) : List Nat :=
  let a := st.getD 0 0
  let b := st.getD 1 0
  let c := st.getD 2 0
  let d := st.getD 3 0
  let e := st.getD 4 0
  let f := st.getD 5 0
  let g := st.getD 6 0
  let h := st.getD 7 0
  let t1 := (h + bigSigma1 e + chFn e f g + wk.2 + wk.1) % 4294967296
  let t2 := (bigSigma0 a + majFn a b c) % 4294967296
  [(t1 + t2) % 4294967296, a, b, c, (d + t1) % 4294967296, e, f, g]

/-- SHA-256 compression of one 64-byte block into the hash state. -/
def sha256Compress (h : List Nat) (block : List Nat) : List Nat :=
  let w := sha256Schedule block
  let st := (w.zip sha256K).foldl sha256Round h
  List.zipWith add32 h st

/-- Big-endian lowercase hex of a 32-bit word. -/
def word32HexBE (x : Nat) : String :=
  byteHexLower (x / 16777216 % 256) ++ byteHexLower (x / 65536 % 256) ++
    byteHexLower (x / 256 % 256) ++ byteHexLower (x % 256)

/-- `hashlib.sha256(bytes).hexdigest()`. -/
def sha256hexBytes (msg : List Nat) : String :=
  let hs := (chunks64 (sha256pad msg)).foldl sha256Compress sha256H0
  String.join (hs.map word32HexBE)

/-- `hashlib.sha256(s.encode('utf-8')).hexdigest()`. -/
def sha256hex (s : String) : String := sha256hexBytes (utf8Bytes s)

/-! ### MD5 over byte lists (`hashlib.md5`) -/

/-- Bitwise rotate-left of a 32-bit word, in arithmetic form. -/
def rotl32 (n x : Nat) : Nat :=
  let y := x % 4294967296
  y * 2 ^ n % 4294967296 + y / 2 ^ (32 - n)

/-- MD5 sine-derived round constants. -/
def md5K : List Nat :=
  [0xd76aa478, 0xe8c7b756, 0x242070db, 0xc1bdceee,
   0xf57c0faf, 0x4787c62a, 0xa8304613, 0xfd469501,
   0x698098d8, 0x8b44f7af, 0xffff5bb1, 0x895cd7be,
   0x6b901122, 0xfd987193, 0xa679438e, 0x49b40821,
   0xf61e2562, 0xc040b340, 0x265e5a51, 0xe9b6c7aa,
   0xd62f105d, 0x02441453, 0xd8a1e681, 0xe7d3fbc8,
   0x21e1cde6, 0xc33707d6, 0xf4d50d87, 0x455a14ed,
   0xa9e3e905, 0xfcefa3f8, 0x676f02d9, 0x8d2a4c8a,
   0xfffa3942, 0x8771f681, 0x6d9d6122, 0xfde5380c,
   0xa4beea44, 0x4bdecfa9, 0xf6bb4b60, 0xbebfbc70,
   0x289b7ec6, 0xeaa127fa, 0xd4ef3085, 0x04881d05,
   0xd9d4d039, 0xe6db99e5, 0x1fa27cf8, 0xc4ac5665,
   0xf4292244, 0x432aff97, 0xab9423a7, 0xfc93a039,
   0x655b59c3, 0x8f0ccc92, 0xffeff47d, 0x85845dd1,
   0x6fa87e4f, 0xfe2ce6e0, 0xa3014314, 0x4e0811a1,
   0xf7537e82, 0xbd3af235, 0x2ad7d2bb, 0xeb86d391]

/-- MD5 per-round left-rotation amounts. -/
def md5S : List Nat :=
  [7, 12, 17, 22, 7, 12, 17, 22, 7, 12, 17, 22, 7, 12, 17, 22,
   5, 9, 14, 20, 5, 9, 14, 20, 5, 9, 14, 20, 5, 9, 14, 20,
   4, 11, 16, 23, 4, 11, 16, 23, 4, 11, 16, 23, 4, 11, 16, 23,
   6, 10, 15, 21, 6, 10, 15, 21, 6, 10, 15, 21, 6, 10, 15, 21]

/-- Merkle–Damgård padding with a little-endian 64-bit bit length. -/
def md5pad (msg : List Nat) : List Nat :=
  let len := msg.length
  let zeros := (120 - (len + 1) % 64) % 64
  let bitlen := 8 * len
  msg ++ [128] ++ List.replicate zeros 0 ++
    [bitlen % 256, bitlen / 2 ^ 8 % 256, bitlen / 2 ^ 16 % 256,
     bitlen / 2 ^ 24 % 256, bitlen / 2 ^ 32 % 256, bitlen / 2 ^ 40 % 256,
     bitlen / 2 ^ 48 % 256, bitlen / 2 ^ 56 % 256]

/-- Little-endian 32-bit words of a byte list. -/
def le32Words : List Nat → List Nat
  | a :: b :: c :: d :: rest =>
    (a + b * 256 + c * 65536 + d * 16777216) :: le32Words rest
  | _ => []

/-- The MD5 working state. -/
structure MD5State where
  a : Nat
  b : Nat
  c : Nat
  d : Nat

/-- One MD5 round (round index `i`, message words `m`). -/
def md5Round (m : List Nat) (st : MD5State) (i : Nat) : MD5State :=
  let fg :=
    if i < 16 then ((st.b &&& st.c) ||| (not32 st.b &&& st.d), i)
    else if i < 32 then ((st.d &&& st.b) ||| (not32 st.d &&& st.c),
      (5 * i + 1) % 16)
    else if i < 48 then (st.b ^^^ st.c ^^^ st.d, (3 * i + 5) % 16)
    else (st.c ^^^ (st.b ||| not32 st.d), (7 * i) % 16)
  let f := (fg.1 + st.a + md5K.getD i 0 + m.getD fg.2 0) % 4294967296
  { a := st.d, b := (st.b + rotl32 (md5S.getD i 0) f) % 4294967296,
    c := st.b, d := st.c }

/-- MD5 compression of one 64-byte block into the hash state. -/
def md5Compress (h : List Nat) (block : List Nat) : List Nat :=
  let m := le32Words block
  let st0 : MD5State := ⟨h.getD 0 0, h.getD 1 0, h.getD 2 0, h.getD 3 0⟩
  let st := (List.range 64).foldl (md5Round m) st0
  [add32 (h.getD 0 0) st.a, add32 (h.getD 1 0) st.b,
   add32 (h.getD 2 0) st.c, add32 (h.getD 3 0) st.d]

/-- Little-endian lowercase hex of a 32-bit word. -/
def word32HexLE (x : Nat) : String :=
  byteHexLower (x % 256) ++ byteHexLower (x / 256 % 256) ++
    byteHexLower (x / 65536 % 256) ++ byteHexLower (x / 16777216 % 256)

/-- `hashlib.md5(bytes).hexdigest()`. -/
def md5hexBytes (msg : List Nat) : String :=
  let hs := (chunks64 (md5pad msg)).foldl md5Compress
    [0x67452301, 0xefcdab89, 0x98badcfe, 0x10325476]
  String.join (hs.map word32HexLE)

/-- `hashlib.md5(s.encode('utf-8')).hexdigest()`. -/
def md5hex (s : String) : String := md5hexBytes (utf8Bytes s)

/-! ### The avatar functions -/

/-- `avatar_url_from_openid`. -/
def avatar_url_from_openid (libravatar : LibravatarResolver) (openid : String)
    (size : Nat) (default : String) (dns : Bool) : String :=
  if dns then
    libravatar.from_openid openid size default
  else
    let params := _ordered_query_params [("s", toString size), ("d", default)]
    let query := urlencode params
    let hash := sha256hex openid
    "https://seccdn.libravatar.org/avatar/" ++ hash ++ "?" ++ query

/-- `avatar_url_from_email`. -/
def avatar_url_from_email (libravatar : LibravatarResolver) (email : String)
    (size : Nat) (default : String) (dns : Bool) : String :=
  if dns then
    libravatar.from_email email size default
  else
    let params := _ordered_query_params [("s", toString size), ("d", default)]
    let query := urlencode params
    let hash := md5hex email
    "https://seccdn.libravatar.org/avatar/" ++ hash ++ "?" ++ query

/-- `avatar_url`: override table first, else the synthesized OpenID. -/
def avatar_url (libravatar : LibravatarResolver) (username : String)
    (size : Nat) (default : String) : String :=
  match hardcoded_avatars.lookup username with
  | some template => pyFormatSize template size
  | none =>
    let openid := "http://" ++ username ++ ".id.fedoraproject.org/"
    avatar_url_from_openid libravatar openid size default false

/-! ### Concrete fixtures used by witnesses and counterexamples -/

/-- A trivial external libravatar resolver. -/
def trivialLibravatar : LibravatarResolver :=
  ⟨fun _ _ _ => "", fun _ _ _ => ""⟩

/-- A directory whose every search returns zero people. -/
def emptyDirectory : Directory :=
  fun _ => { people := [], username := "", email := none, ircnick := none }

/-- A concrete credential bundle. -/
def creds1 : FasCredentials :=
  { username := "fedmsg", password := "secret", base_url := none }

/-- A single person having both an email address and an IRC nickname. -/
def personBob : Person :=
  { username := some "bob", email := some "bob@example.com",
    ircnick := some "bobnick" }

/-- A response with exactly `personBob` and no top-level `email`/`ircnick`
fields (the realistic `/user/list` shape). -/
def respSingleBob : FasResponse :=
  { people := [personBob], username := "bob", email := none, ircnick := none }

/-- Like `respSingleBob`, but also carrying top-level `email` and `ircnick`
fields equal to the person's. -/
def respSingleBobTop : FasResponse :=
  { people := [personBob], username := "bob", email := some "bob@example.com",
    ircnick := some "bobnick" }

/-- A response containing two people, with a top-level `email` field. -/
def respAmbiguous : FasResponse :=
  { people := [{ username := some "alice", email := some "alice@example.com",
                 ircnick := none },
               { username := some "alice2", email := some "alice@example.com",
                 ircnick := none }]
    username := "alice", email := some "alice@example.com", ircnick := none }

/-- A directory returning exactly one person who has both an email and an IRC
nickname; the response carries no top-level `email`/`ircnick` fields. -/
def dirSingleBob : Directory := fun _ => respSingleBob

/-- Like `dirSingleBob`, but the response also carries top-level `email` and
`ircnick` fields equal to the person's. -/
def dirSingleBobTop : Directory := fun _ => respSingleBobTop

/-- A directory returning two people, with a top-level `email` field. -/
def dirAmbiguous : Directory := fun _ => respAmbiguous

/-- The concrete cache key of `nick2fas "bobnick"` called with `creds1`. -/
def nickBobKey : String :=
  "fedmsg_meta_fedora_infrastructure.fasshim:nick2fas|bobnick \x7b'username': 'fedmsg', 'password': 'secret'\x7d"

/-- The concrete cache key of `email2fas "bob@example.com"` called with
`creds1`. -/
def emailBobKey : String :=
  "fedmsg_meta_fedora_infrastructure.fasshim:email2fas|bob@example.com \x7b'username': 'fedmsg', 'password': 'secret'\x7d"

/-- `k` successive invocations of the same call, threading the cache through
and summing the remote search counts (sequential invocation). -/
def iterate_call (f : Cache → Except FasError String × Cache × Nat) :
    Nat → Cache → Cache × Nat
  | 0, c => (c, 0)
  | k + 1, c =>
    let r := f c
    let rest := iterate_call f k r.2.1
    (rest.1, r.2.2 + rest.2)

/-! ### Helper lemmas -/

/-- If a string decomposes as `pre ++ "@fedoraproject.org"`, the Python
`endswith` check succeeds. -/
theorem pyEndsWith_of_append (email : String) (pre : List Char)
    (hsuf : email.data = pre ++ ("@fedoraproject.org").data) :
    pyEndsWith email "@fedoraproject.org" = true := by
  have : ("@fedoraproject.org").data <:+ email.data := by
    rw [hsuf]; exact List.suffix_append pre _
  simpa [pyEndsWith, String.toList] using this

/-- If a string decomposes as `pre ++ "@fedoraproject.org"`, Python's
`rsplit('@', 1)[0]` returns exactly `pre`: the suffix contributes the final
`'@'`, whatever `pre` contains. -/
theorem rsplit_of_append (email : String) (pre : List Char)
    (hsuf : email.data = pre ++ ("@fedoraproject.org").data) :
    rsplit_before_last_at email = String.mk pre := by
  have hdrop :
      email.data.reverse.dropWhile (fun c => c != '@') = '@' :: pre.reverse := by
    rw [hsuf, List.reverse_append]
    rw [List.dropWhile_append]
    simp
  unfold rsplit_before_last_at
  rw [String.toList, hdrop]
  simp

/-- A decorated call that hits the cache returns the cached value, leaves the
cache unchanged and issues no search. -/
theorem cache_on_arguments_hit (fn_name identity : String)
    (fas_credentials : Option FasCredentials)
    (body : Cache → Except FasError String × Cache × Nat) (cache : Cache)
    (v : String)
    (h : cache.get (function_key_generator fn_name
      (args_of identity fas_credentials)) = some v) :
    cache_on_arguments fn_name identity fas_credentials body cache =
      (Except.ok v, cache, 0) := by
  simp only [cache_on_arguments]
  rw [h]

/-- After a successful decorated call, the call's key is bound to the returned
value in the resulting cache. -/
theorem cache_on_arguments_get_of_ok (fn_name identity : String)
    (fas_credentials : Option FasCredentials)
    (body : Cache → Except FasError String × Cache × Nat) (cache c' : Cache)
    (v : String) (n : Nat)
    (h : cache_on_arguments fn_name identity fas_credentials body cache =
      (Except.ok v, c', n)) :
    c'.get (function_key_generator fn_name
      (args_of identity fas_credentials)) = some v := by
  simp only [cache_on_arguments] at h
  split at h
  · rename_i w hget
    cases h
    exact hget
  · rename_i hget
    split at h
    · rename_i w cb nb hbody
      cases h
      simp [Cache.get, Cache.set]
    · rename_i e cb nb hbody
      cases h

/-! ### Claim C3 -/

/-- C3: for every email `e` ending in the suffix `@fedoraproject.org` (written
as `e = pre ++ "@fedoraproject.org"`), for every credential bundle (including
none) and every directory, `email2fas` called on a cache with no entry for the
call's key returns the local part of `e` — the substring `pre` before the
final `'@'` — and performs zero remote directory searches. -/
theorem C3_email2fas_short_circuit (directory : Directory) (email : String)
    (pre : List Char) (fas_credentials : Option FasCredentials) (cache : Cache)
    (hsuf : email.data = pre ++ ("@fedoraproject.org").data)
    (hmiss : cache.get (function_key_generator "email2fas"
      (args_of email fas_credentials)) = none) :
    (email2fas directory email fas_credentials cache).1 =
      Except.ok (String.mk pre) ∧
    (email2fas directory email fas_credentials cache).2.2 = 0 := by
  have hEnds := pyEndsWith_of_append email pre hsuf
  have hr := rsplit_of_append email pre hsuf
  simp only [email2fas, cache_on_arguments, hmiss, email2fas_body, hEnds,
    if_true, hr]
  exact ⟨trivial, trivial⟩

/-- Witness for C3 at `email = "jcline@fedoraproject.org"`. -/
theorem C3_witness :
    (email2fas emptyDirectory "jcline@fedoraproject.org" none []).1 =
      Except.ok (String.mk ['j', 'c', 'l', 'i', 'n', 'e']) ∧
    (email2fas emptyDirectory "jcline@fedoraproject.org" none []).2.2 = 0 :=
  C3_email2fas_short_circuit emptyDirectory "jcline@fedoraproject.org"
    ['j', 'c', 'l', 'i', 'n', 'e'] none [] (by decide) rfl

/-! ### Claim C4 -/

/-- C4 is refuted as stated: the short-circuited `email2fas` call for a
`@fedoraproject.org` address does not leave the cache unchanged — the
`cache_on_arguments` decorator wraps the short-circuit and stores its result. -/
theorem C4_counterexample :
    (email2fas emptyDirectory "jcline@fedoraproject.org" none []).2.1 ≠ [] := by
  decide

/-- C4 (amended): a `@fedoraproject.org` call still goes through the
memoization wrapper: the wrapper looks the key up (a pre-existing cache entry
is returned as-is, with the cache unchanged), and on a miss the short-circuited
local part is written to the cache under the call's key. -/
theorem C4_amended_short_circuit_cache (directory : Directory) (email : String)
    (fas_credentials : Option FasCredentials) (cache : Cache)
    (hEnds : pyEndsWith email "@fedoraproject.org" = true) :
    (∀ v, cache.get (function_key_generator "email2fas"
        (args_of email fas_credentials)) = some v →
      email2fas directory email fas_credentials cache =
        (Except.ok v, cache, 0)) ∧
    (cache.get (function_key_generator "email2fas"
        (args_of email fas_credentials)) = none →
      email2fas directory email fas_credentials cache =
        (Except.ok (rsplit_before_last_at email),
          cache.set (function_key_generator "email2fas"
            (args_of email fas_credentials)) (rsplit_before_last_at email),
          0)) := by
  constructor
  · intro v hv
    exact cache_on_arguments_hit _ _ _ _ _ _ hv
  · intro hmiss
    simp only [email2fas, cache_on_arguments, hmiss, email2fas_body, hEnds,
      if_true]

/-- Witness for the amended C4 at `email = "jcline@fedoraproject.org"`. -/
theorem C4_amended_witness :
    email2fas emptyDirectory "jcline@fedoraproject.org" none [] =
      (Except.ok (rsplit_before_last_at "jcline@fedoraproject.org"),
        Cache.set [] (function_key_generator "email2fas"
          (args_of "jcline@fedoraproject.org" none))
          (rsplit_before_last_at "jcline@fedoraproject.org"), 0) :=
  (C4_amended_short_circuit_cache emptyDirectory "jcline@fedoraproject.org"
    none [] (by decide)).2 rfl

/-! ### Claim C5 -/

/-- C5: for every username in the override table, `avatar_url` returns the
override template formatted with `size`, and the result does not depend on the
`default` argument (no hash-based URL is built). -/
theorem C5_avatar_url_hardcoded (libravatar : LibravatarResolver)
    (username template : String) (size : Nat) (default default' : String)
    (h : hardcoded_avatars.lookup username = some template) :
    avatar_url libravatar username size default = pyFormatSize template size ∧
    avatar_url libravatar username size default =
      avatar_url libravatar username size default' := by
  simp only [avatar_url, h]
  exact ⟨trivial, trivial⟩

/-- Witness for C5 at `username = "bodhi"`. -/
theorem C5_witness :
    avatar_url trivialLibravatar "bodhi" 64 "retro" =
      pyFormatSize
        "https://apps.fedoraproject.org/img/icons/bodhi-\x7bsize\x7d.png" 64 ∧
    avatar_url trivialLibravatar "bodhi" 64 "retro" =
      avatar_url trivialLibravatar "bodhi" 64 "mm" :=
  C5_avatar_url_hardcoded trivialLibravatar "bodhi"
    "https://apps.fedoraproject.org/img/icons/bodhi-\x7bsize\x7d.png"
    64 "retro" "mm" (by decide)

/-! ### Claim C8 -/

/-- C8: a zero-people search makes `_search_fas` raise `NoMatch` (a
`ValueError`) before the cache-warming loop, leaving the cache exactly
unchanged; the error is surfaced unchanged by `nick2fas`, and by `email2fas`
for an email without the fedoraproject suffix, and the failed calls cache
nothing (the cache after equals the cache before). -/
theorem C8_no_match (directory : Directory) (s nickname email : String)
    (creds : FasCredentials) (cache : Cache) (b : Bool) :
    ((directory (fas_request creds s b)).people = [] →
      _search_fas directory s (some creds) b cache =
        (Except.error (FasError.noMatch (noMatchMsg s b)), cache, 1)) ∧
    ((directory (fas_request creds nickname false)).people = [] →
      cache.get (function_key_generator "nick2fas"
        (args_of nickname (some creds))) = none →
      nick2fas directory nickname (some creds) cache =
        (Except.error (FasError.noMatch (noMatchMsg nickname false)),
          cache, 1)) ∧
    (pyEndsWith email "@fedoraproject.org" = false →
      (directory (fas_request creds email true)).people = [] →
      cache.get (function_key_generator "email2fas"
        (args_of email (some creds))) = none →
      email2fas directory email (some creds) cache =
        (Except.error (FasError.noMatch (noMatchMsg email true)),
          cache, 1)) := by
  refine ⟨?_, ?_, ?_⟩
  · intro hp
    simp only [_search_fas, hp, List.isEmpty_nil, if_true]
  · intro hp hmiss
    simp only [nick2fas, cache_on_arguments, hmiss, nick2fas_body, _search_fas,
      hp, List.isEmpty_nil, if_true]
  · intro hends hp hmiss
    simp only [email2fas, cache_on_arguments, hmiss, email2fas_body, hends,
      Bool.false_eq_true, if_false, _search_fas, hp, List.isEmpty_nil, if_true]

/-- Witness for C8 with a directory returning zero people for every search. -/
theorem C8_witness :
    (_search_fas emptyDirectory "x" (some creds1) true [] =
      (Except.error (FasError.noMatch (noMatchMsg "x" true)), [], 1)) ∧
    (nick2fas emptyDirectory "nick" (some creds1) [] =
      (Except.error (FasError.noMatch (noMatchMsg "nick" false)), [], 1)) ∧
    (email2fas emptyDirectory "e@example.com" (some creds1) [] =
      (Except.error (FasError.noMatch (noMatchMsg "e@example.com" true)),
        [], 1)) :=
  ⟨(C8_no_match emptyDirectory "x" "nick" "e@example.com" creds1 [] true).1 rfl,
   (C8_no_match emptyDirectory "x" "nick" "e@example.com" creds1 []
     true).2.1 rfl rfl,
   (C8_no_match emptyDirectory "x" "nick" "e@example.com" creds1 []
     true).2.2 (by decide) rfl rfl⟩

/-! ### Claims C1 and C2 -/

/-- A search over a nonempty-people response succeeds, returns the people
list, warms the cache and counts one remote search. -/
theorem _search_fas_ok (directory : Directory) (s : String)
    (creds : FasCredentials) (b : Bool) (cache : Cache)
    (h : (directory (fas_request creds s b)).people ≠ []) :
    _search_fas directory s (some creds) b cache =
      (Except.ok (directory (fas_request creds s b)).people,
        warm_cache (directory (fas_request creds s b)) cache, 1) := by
  have hb : (directory (fas_request creds s b)).people.isEmpty = false := by
    simpa [List.isEmpty_iff] using h
  simp only [_search_fas, hb, Bool.false_eq_true, if_false]

/-- The warming loop leaves the cache exactly unchanged when the response has
no top-level `email` and no top-level `ircnick`. -/
theorem warm_cache_no_fields (response : FasResponse) (cache : Cache)
    (he : response.email = none) (hi : response.ircnick = none) :
    warm_cache response cache = cache := by
  have hstep : ∀ c : Cache, warm_step response c = c := by
    intro c
    simp [warm_step, he, hi]
  have hfold : ∀ (l : List Person) (c : Cache),
      l.foldl (fun acc _person => warm_step response acc) c = c := by
    intro l
    induction l with
    | nil => intro c; rfl
    | cons p ps ih =>
      intro c
      rw [List.foldl_cons, hstep]
      exact ih c
  exact hfold _ _

/-- C1 fails on the code: after `nick2fas` succeeds for a directory search
returning exactly one person having both an email and an IRC nickname, the
subsequent `email2fas` for that person's email with the same credentials
issues a remote search (search count 1, not a cache hit).  This holds both
when the response has no top-level `email`/`ircnick` (nothing relevant gets
warmed, since the loop reads only top-level fields) and when its top-level
fields match the person's (the warmed key is built without the credentials
argument that the call's key includes). -/
theorem C1_second_call_searches_again :
    (nick2fas dirSingleBob "bobnick" (some creds1) []).1 = Except.ok "bob" ∧
    (email2fas dirSingleBob "bob@example.com" (some creds1)
      (nick2fas dirSingleBob "bobnick" (some creds1) []).2.1).2.2 = 1 ∧
    (nick2fas dirSingleBobTop "bobnick" (some creds1) []).1 = Except.ok "bob" ∧
    (email2fas dirSingleBobTop "bob@example.com" (some creds1)
      (nick2fas dirSingleBobTop "bobnick" (some creds1) []).2.1).2.2 = 1 := by
  decide

/-- C2 is refuted as stated: for a two-people response carrying a top-level
`email` field, the failed `nick2fas` call raises the ambiguity `ValueError`
but does not leave the cache unchanged — the warming loop already ran. -/
theorem C2_counterexample :
    (nick2fas dirAmbiguous "alice" (some creds1) []).1 =
      Except.error (FasError.ambiguousMatch (nickMultipleMsg "alice")) ∧
    (nick2fas dirAmbiguous "alice" (some creds1) []).2.1 ≠ [] := by
  decide

/-- C2 (amended): for a search returning two or more people, `nick2fas` and
`email2fas` raise the ambiguity `ValueError` and store nothing under the
called key, but the warming loop has already run when the error is raised: the
resulting cache is `warm_cache response cache`, which differs from `cache`
when the response carries a top-level `email` or `ircnick` and equals `cache`
exactly when it carries neither. -/
theorem C2_amended_ambiguous (directory : Directory) (nickname email : String)
    (creds : FasCredentials) (cache : Cache) :
    (1 < (directory (fas_request creds nickname false)).people.length →
      cache.get (function_key_generator "nick2fas"
        (args_of nickname (some creds))) = none →
      nick2fas directory nickname (some creds) cache =
        (Except.error (FasError.ambiguousMatch (nickMultipleMsg nickname)),
          warm_cache (directory (fas_request creds nickname false)) cache,
          1)) ∧
    (pyEndsWith email "@fedoraproject.org" = false →
      1 < (directory (fas_request creds email true)).people.length →
      cache.get (function_key_generator "email2fas"
        (args_of email (some creds))) = none →
      email2fas directory email (some creds) cache =
        (Except.error (FasError.ambiguousMatch (emailMultipleMsg email)),
          warm_cache (directory (fas_request creds email true)) cache, 1)) ∧
    (∀ response : FasResponse, response.email = none →
      response.ircnick = none → warm_cache response cache = cache) := by
  refine ⟨?_, ?_, ?_⟩
  · intro hlen hmiss
    have hne : (directory (fas_request creds nickname false)).people ≠ [] := by
      intro hnil
      rw [hnil] at hlen
      simp at hlen
    simp only [nick2fas, cache_on_arguments, hmiss, nick2fas_body,
      _search_fas_ok directory nickname creds false cache hne, hlen, if_true]
  · intro hends hlen hmiss
    have hne : (directory (fas_request creds email true)).people ≠ [] := by
      intro hnil
      rw [hnil] at hlen
      simp at hlen
    simp only [email2fas, cache_on_arguments, hmiss, email2fas_body, hends,
      Bool.false_eq_true, if_false,
      _search_fas_ok directory email creds true cache hne, hlen, if_true]
  · intro response he hi
    exact warm_cache_no_fields response cache he hi

/-- Witness for the amended C2 on a concrete two-people response. -/
theorem C2_amended_witness :
    nick2fas dirAmbiguous "alice" (some creds1) [] =
      (Except.error (FasError.ambiguousMatch (nickMultipleMsg "alice")),
        warm_cache (dirAmbiguous (fas_request creds1 "alice" false)) [], 1) :=
  (C2_amended_ambiguous dirAmbiguous "alice" "e@example.com" creds1 []).1
    (by decide) rfl

/-! ### Claim C9 -/

/-- `_search_fas` issues at most one remote search. -/
theorem _search_fas_searches_le_one (directory : Directory) (s : String)
    (creds : Option FasCredentials) (b : Bool) (cache : Cache) :
    (_search_fas directory s creds b cache).2.2 ≤ 1 := by
  cases creds with
  | none => simp [_search_fas]
  | some c =>
    simp only [_search_fas]
    split <;> simp

/-- The `nick2fas` body issues at most one remote search. -/
theorem nick2fas_body_searches_le_one (directory : Directory)
    (nickname : String) (creds : Option FasCredentials) (cache : Cache) :
    (nick2fas_body directory nickname creds cache).2.2 ≤ 1 := by
  have hs := _search_fas_searches_le_one directory nickname creds false cache
  unfold nick2fas_body
  split
  · rename_i e c n heq
    rw [heq] at hs
    exact hs
  · rename_i people c n heq
    rw [heq] at hs
    split
    · exact hs
    · split
      · exact hs
      · split <;> exact hs

/-- The `email2fas` body issues at most one remote search. -/
theorem email2fas_body_searches_le_one (directory : Directory)
    (email : String) (creds : Option FasCredentials) (cache : Cache) :
    (email2fas_body directory email creds cache).2.2 ≤ 1 := by
  have hs := _search_fas_searches_le_one directory email creds true cache
  unfold email2fas_body
  split
  · simp
  · split
    · rename_i e c n heq
      rw [heq] at hs
      exact hs
    · rename_i people c n heq
      rw [heq] at hs
      split
      · exact hs
      · split
        · exact hs
        · split <;> exact hs

/-- A decorated call issues at most one remote search when its body does. -/
theorem cache_on_arguments_searches_le_one (fn_name identity : String)
    (fas_credentials : Option FasCredentials)
    (body : Cache → Except FasError String × Cache × Nat) (cache : Cache)
    (hbody : ∀ c, (body c).2.2 ≤ 1) :
    (cache_on_arguments fn_name identity fas_credentials body cache).2.2 ≤
      1 := by
  simp only [cache_on_arguments]
  split
  · simp
  · rcases hb : body cache with ⟨r, c, n⟩
    have := hbody cache
    rw [hb] at this
    cases r <;> exact this

/-- A successful decorated call makes the identical next call a pure cache
hit. -/
theorem cache_on_arguments_idem (fn_name identity : String)
    (fas_credentials : Option FasCredentials)
    (body : Cache → Except FasError String × Cache × Nat)
    (cache c' : Cache) (v : String) (n : Nat)
    (h : cache_on_arguments fn_name identity fas_credentials body cache =
      (Except.ok v, c', n)) :
    cache_on_arguments fn_name identity fas_credentials body c' =
      (Except.ok v, c', 0) :=
  cache_on_arguments_hit fn_name identity fas_credentials body c' v
    (cache_on_arguments_get_of_ok fn_name identity fas_credentials body
      cache c' v n h)

/-- Iterating a call that is a stable cache hit never changes the cache and
never searches. -/
theorem iterate_call_stable (f : Cache → Except FasError String × Cache × Nat)
    (v : String) (c' : Cache) (hf : f c' = (Except.ok v, c', 0)) :
    ∀ k, iterate_call f k c' = (c', 0) := by
  intro k
  induction k with
  | zero => rfl
  | succ k ih => simp [iterate_call, hf, ih]

/-- C9: under sequential invocation, a first successful `nick2fas` or
`email2fas` call issues at most one remote search, and every later call with
identical arguments is served from the cache: it returns the same username,
leaves the cache unchanged and issues zero searches — so any number of
repeated identical calls issues at most one remote search in total. -/
theorem C9_memoization (directory : Directory) (nickname email : String)
    (fas_credentials : Option FasCredentials) (cache : Cache) (v w : String)
    (c' c'' : Cache) (n m k : Nat) :
    (nick2fas directory nickname fas_credentials cache =
        (Except.ok v, c', n) →
      n ≤ 1 ∧
      nick2fas directory nickname fas_credentials c' =
        (Except.ok v, c', 0) ∧
      iterate_call (nick2fas directory nickname fas_credentials) k c' =
        (c', 0)) ∧
    (email2fas directory email fas_credentials cache =
        (Except.ok w, c'', m) →
      m ≤ 1 ∧
      email2fas directory email fas_credentials c'' =
        (Except.ok w, c'', 0) ∧
      iterate_call (email2fas directory email fas_credentials) k c'' =
        (c'', 0)) := by
  constructor
  · intro h
    have hle := cache_on_arguments_searches_le_one "nick2fas" nickname
      fas_credentials (nick2fas_body directory nickname fas_credentials) cache
      (fun c => nick2fas_body_searches_le_one directory nickname
        fas_credentials c)
    rw [show cache_on_arguments "nick2fas" nickname fas_credentials
        (nick2fas_body directory nickname fas_credentials) cache =
        (Except.ok v, c', n) from h] at hle
    have hidem := cache_on_arguments_idem "nick2fas" nickname fas_credentials
      (nick2fas_body directory nickname fas_credentials) cache c' v n h
    exact ⟨hle, hidem, iterate_call_stable _ v c' hidem k⟩
  · intro h
    have hle := cache_on_arguments_searches_le_one "email2fas" email
      fas_credentials (email2fas_body directory email fas_credentials) cache
      (fun c => email2fas_body_searches_le_one directory email
        fas_credentials c)
    rw [show cache_on_arguments "email2fas" email fas_credentials
        (email2fas_body directory email fas_credentials) cache =
        (Except.ok w, c'', m) from h] at hle
    have hidem := cache_on_arguments_idem "email2fas" email fas_credentials
      (email2fas_body directory email fas_credentials) cache c'' w m h
    exact ⟨hle, hidem, iterate_call_stable _ w c'' hidem k⟩

/-- Witness for C9: concrete successful first calls, followed by cache-hit
repetitions. -/
theorem C9_witness :
    (1 ≤ 1 ∧
     nick2fas dirSingleBob "bobnick" (some creds1) [(nickBobKey, "bob")] =
       (Except.ok "bob", [(nickBobKey, "bob")], 0) ∧
     iterate_call (nick2fas dirSingleBob "bobnick" (some creds1)) 3
       [(nickBobKey, "bob")] = ([(nickBobKey, "bob")], 0)) ∧
    (1 ≤ 1 ∧
     email2fas dirSingleBob "bob@example.com" (some creds1)
       [(emailBobKey, "bob")] = (Except.ok "bob", [(emailBobKey, "bob")], 0) ∧
     iterate_call (email2fas dirSingleBob "bob@example.com" (some creds1)) 3
       [(emailBobKey, "bob")] = ([(emailBobKey, "bob")], 0)) :=
  ⟨(C9_memoization dirSingleBob "bobnick" "bob@example.com" (some creds1) []
      "bob" "bob" [(nickBobKey, "bob")] [(emailBobKey, "bob")] 1 1 3).1
      (by decide),
   (C9_memoization dirSingleBob "bobnick" "bob@example.com" (some creds1) []
      "bob" "bob" [(nickBobKey, "bob")] [(emailBobKey, "bob")] 1 1 3).2
      (by decide)⟩

/-! ### Claim C10 -/

/-- One warming iteration does not change the cache at keys other than the
keys derived from the response's top-level `email` and `ircnick`. -/
theorem get_warm_step_ne (response : FasResponse) (c : Cache) (k : String)
    (hE : ∀ e, response.email = some e → k ≠ email_key_func e)
    (hI : ∀ i, response.ircnick = some i → k ≠ nick_key_func i) :
    Cache.get (warm_step response c) k = Cache.get c k := by
  unfold warm_step
  cases hi : response.ircnick with
  | none =>
    cases he : response.email with
    | none => rfl
    | some e => simp [Cache.get, Cache.set, hE e he]
  | some i =>
    cases he : response.email with
    | none => simp [Cache.get, Cache.set, hI i hi]
    | some e => simp [Cache.get, Cache.set, hI i hi, hE e he]

/-- One warming iteration is idempotent at the level of cache reads. -/
theorem get_warm_step_idem (response : FasResponse) (c : Cache) (k : String) :
    Cache.get (warm_step response (warm_step response c)) k =
      Cache.get (warm_step response c) k := by
  unfold warm_step
  cases hi : response.ircnick <;> cases he : response.email <;>
    simp [Cache.get, Cache.set] <;> split_ifs <;> simp_all

/-- Over a nonempty people list, the whole warming loop reads like a single
iteration. -/
theorem get_warm_cache_nonempty (response : FasResponse) (c : Cache)
    (k : String) (h : response.people ≠ []) :
    Cache.get (warm_cache response c) k =
      Cache.get (warm_step response c) k := by
  unfold warm_cache
  have hfold : ∀ (ps : List Person) (c0 : Cache), ps ≠ [] →
      Cache.get (ps.foldl (fun acc _person => warm_step response acc) c0) k =
        Cache.get (warm_step response c0) k := by
    intro ps
    induction ps with
    | nil => intro c0 hc; exact absurd rfl hc
    | cons p ps ih =>
      intro c0 _
      rw [List.foldl_cons]
      by_cases hps : ps = []
      · rw [hps]
        rfl
      · rw [ih (warm_step response c0) hps, get_warm_step_idem]
  exact hfold _ _ h

/-- C10: the cache-warming loop of `_search_fas` derives the warmed keys
solely from the response's top-level `email` and `ircnick` fields, applying
the key functions to the identity alone: every key whose cached value changes
is the email key of the top-level `email` or the nick key of the top-level
`ircnick` — hence at most two distinct keys are warmed per search — and the
warmed cache does not depend on the per-person contents of the `people` list
(for any two nonempty lists). -/
theorem C10_warming_top_level_only (response : FasResponse) (cache : Cache)
    (k : String) (people' : List Person) :
    (Cache.get (warm_cache response cache) k ≠ Cache.get cache k →
      (∃ e, response.email = some e ∧ k = email_key_func e) ∨
      (∃ i, response.ircnick = some i ∧ k = nick_key_func i)) ∧
    (response.people ≠ [] → people' ≠ [] →
      Cache.get (warm_cache { response with people := people' } cache) k =
        Cache.get (warm_cache response cache) k) := by
  constructor
  · intro hne
    by_contra hcon
    push_neg at hcon
    apply hne
    by_cases hp : response.people = []
    · unfold warm_cache
      rw [hp]
      rfl
    · rw [get_warm_cache_nonempty response cache k hp]
      exact get_warm_step_ne response cache k
        (fun e he heq => (hcon.1 e he) heq)
        (fun i hi heq => (hcon.2 i hi) heq)
  · intro h1 h2
    rw [get_warm_cache_nonempty response cache k h1,
      get_warm_cache_nonempty { response with people := people' } cache k
        (by simpa using h2)]
    cases response
    rfl

/-- Witness for C10 on a concrete two-people response with a top-level email:
the changed key is the email key, and swapping the people list for a different
nonempty one leaves the warmed cache reads unchanged. -/
theorem C10_witness :
    ((∃ e, respAmbiguous.email = some e ∧
        email_key_func "alice@example.com" = email_key_func e) ∨
     (∃ i, respAmbiguous.ircnick = some i ∧
        email_key_func "alice@example.com" = nick_key_func i)) ∧
    Cache.get (warm_cache { respAmbiguous with people := [personBob] } [])
        (email_key_func "alice@example.com") =
      Cache.get (warm_cache respAmbiguous [])
        (email_key_func "alice@example.com") :=
  ⟨(C10_warming_top_level_only respAmbiguous []
      (email_key_func "alice@example.com") [personBob]).1 (by decide),
   (C10_warming_top_level_only respAmbiguous []
      (email_key_func "alice@example.com") [personBob]).2 (by decide)
      (by decide)⟩

/-! ### Claims C6 and C7 -/

/-- Decimal digit characters are always-safe ASCII bytes. -/
theorem digitChar_safe (m : Nat) (h : m < 10) :
    (Nat.digitChar m).toNat < 128 ∧
      always_safe_byte (Nat.digitChar m).toNat = true := by
  interval_cases m <;> decide

/-- Every character `Nat.toDigitsCore` emits in base 10 is safe ASCII,
provided the accumulator's characters are. -/
theorem toDigitsCore_safe (fuel : Nat) : ∀ (n : Nat) (acc : List Char),
    (∀ c ∈ acc, c.toNat < 128 ∧ always_safe_byte c.toNat = true) →
    ∀ c ∈ Nat.toDigitsCore 10 fuel n acc,
      c.toNat < 128 ∧ always_safe_byte c.toNat = true := by
  induction fuel with
  | zero => intro n acc hacc c hc; exact hacc c hc
  | succ fuel ih =>
    intro n acc hacc c hc
    have hd : ∀ c' ∈ Nat.digitChar (n % 10) :: acc,
        c'.toNat < 128 ∧ always_safe_byte c'.toNat = true := by
      intro c' hc'
      rcases List.mem_cons.mp hc' with h1 | h2
      · exact h1 ▸ digitChar_safe (n % 10) (Nat.mod_lt _ (by decide))
      · exact hacc c' h2
    simp only [Nat.toDigitsCore] at hc
    split at hc
    · exact hd c hc
    · exact ih (n / 10) (Nat.digitChar (n % 10) :: acc) hd c hc

/-- Every character of `Nat.repr` is safe ASCII. -/
theorem natRepr_safe (n : Nat) :
    ∀ c ∈ (Nat.repr n).data,
      c.toNat < 128 ∧ always_safe_byte c.toNat = true := by
  intro c hc
  have hdata : (Nat.repr n).data = Nat.toDigitsCore 10 (n + 1) n [] := rfl
  rw [hdata] at hc
  exact toDigitsCore_safe (n + 1) n []
    (fun c' hc' => absurd hc' (List.not_mem_nil c')) c hc

/-- `quote_plus` is the identity on strings of safe ASCII characters. -/
theorem quote_plus_safe (s : String)
    (h : ∀ c ∈ s.data, c.toNat < 128 ∧ always_safe_byte c.toNat = true) :
    quote_plus s = s := by
  have hlist : ∀ (l : List Char),
      (∀ c ∈ l, c.toNat < 128 ∧ always_safe_byte c.toNat = true) →
      (((l.map (fun c => utf8EncodeChar c.toNat)).flatten).map
        quote_plus_byte).flatten = l := by
    intro l hl
    induction l with
    | nil => rfl
    | cons c cs ih =>
      obtain ⟨h1, h2⟩ := hl c (List.mem_cons_self c cs)
      have henc : utf8EncodeChar c.toNat = [c.toNat] := by
        unfold utf8EncodeChar
        rw [if_pos h1]
      have hqp : quote_plus_byte c.toNat = [Char.ofNat c.toNat] := by
        unfold quote_plus_byte
        rw [if_pos h2]
      simp only [List.map_cons, List.flatten_cons, List.cons_append,
        List.nil_append, henc, List.map_append, List.flatten_append, hqp,
        Char.ofNat_toNat]
      rw [ih (fun d hd => hl d (List.mem_cons_of_mem c hd))]
  show String.mk ((((s.data).map (fun c => utf8EncodeChar c.toNat)).flatten).map
    quote_plus_byte).flatten = s
  rw [hlist s.data h]

/-- `quote_plus` leaves the decimal rendering of a natural untouched. -/
theorem quote_plus_toString (n : Nat) :
    quote_plus (toString n) = toString n :=
  quote_plus_safe (Nat.repr n) (natRepr_safe n)

/-- `urlencode` on a two-parameter list. -/
theorem urlencode_pair (k1 v1 k2 v2 : String) :
    urlencode [(k1, v1), (k2, v2)] =
      quote_plus k1 ++ "=" ++ quote_plus v1 ++ "&" ++
        (quote_plus k2 ++ "=" ++ quote_plus v2) := rfl

/-- C6: with `dns = false`, `avatar_url_from_openid` is deterministic — it
does not depend on the external resolver, so two calls with identical
arguments return the identical string — and it returns exactly
`https://seccdn.libravatar.org/avatar/{sha256 hex of openid}?s={size}&d={default}`
with the query keys in the order `s` then `d`. -/
theorem C6_avatar_url_from_openid (lib lib2 : LibravatarResolver)
    (openid : String) (size : Nat) (default : String) :
    avatar_url_from_openid lib openid size default false =
      avatar_url_from_openid lib2 openid size default false ∧
    avatar_url_from_openid lib openid size default false =
      "https://seccdn.libravatar.org/avatar/" ++ sha256hex openid ++ "?" ++
        ("s=" ++ toString size ++ "&" ++ ("d=" ++ quote_plus default)) := by
  constructor
  · rfl
  · have h0 : avatar_url_from_openid lib openid size default false =
        "https://seccdn.libravatar.org/avatar/" ++ sha256hex openid ++ "?" ++
          urlencode [("s", toString size), ("d", default)] := rfl
    rw [h0, urlencode_pair, quote_plus_toString]
    rfl

/-- C7: with `dns = false`, `avatar_url_from_email` returns a URL of exactly
the shape of the OpenID path — same prefix and same ordered `s` then `d`
query — except that the embedded digest is the MD5 hex digest of the email
instead of a SHA-256 digest. -/
theorem C7_avatar_url_from_email (lib lib2 : LibravatarResolver)
    (email : String) (size : Nat) (default : String) :
    avatar_url_from_email lib email size default false =
      avatar_url_from_email lib2 email size default false ∧
    avatar_url_from_email lib email size default false =
      "https://seccdn.libravatar.org/avatar/" ++ md5hex email ++ "?" ++
        ("s=" ++ toString size ++ "&" ++ ("d=" ++ quote_plus default)) := by
  constructor
  · rfl
  · have h0 : avatar_url_from_email lib email size default false =
        "https://seccdn.libravatar.org/avatar/" ++ md5hex email ++ "?" ++
          urlencode [("s", toString size), ("d", default)] := rfl
    rw [h0, urlencode_pair, quote_plus_toString]
    rfl

end Fasshim
